import Mathlib

/-!
Verification of the FCA settlement-prediction pipeline
(`backend/src/ml_models/settlement_predictor`): the data cleaner
(`data/clean_data.py`), the feature engine
(`training/feature_engineering.py`), the predictor
(`training/train_model.py`) and the serving endpoint
(`serving/predict_api.py`).

Modelling conventions:
* pandas tables are `List Row`; each derived column is an `Option`-typed
  field of `Row` (`none` models a NaN cell / not-yet-assigned value).
* float amounts are modelled as `ℚ` (exact decimal arithmetic; all the
  comparisons the pipeline performs are decided identically on the float
  values and on their decimal readings).
* `np.log1p` is an opaque parameter `lg : ℚ → ℚ` of the pipeline: none of
  the pipeline's control flow inspects its value.
* Python's randomized string `hash` is an opaque parameter
  `pyHash : String → ℤ`.
* `np.expm1` and `np.std` on the serving side are modelled over `ℝ` with
  the genuine `Real.exp` / `Real.sqrt`.
-/

/-- Code-point lexicographic comparison of character lists: the order
Python and pandas use on strings. -/
def charsLe : List Char → List Char → Bool
  | [], _ => true
  | _ :: _, [] => false
  | a :: as, b :: bs =>
    if a.toNat < b.toNat then true
    else if b.toNat < a.toNat then false
    else charsLe as bs

/-- Code-point lexicographic order on strings. -/
def strLe (a b : String) : Bool := charsLe a.data b.data

/-- String membership in a list, by structural recursion. -/
def memStr (s : String) : List String → Bool
  | [] => false
  | t :: ts => if s = t then true else memStr s ts

/-- Keep one copy of each string of a list (the last occurrence, as
`pandas` factorization only consumes the resulting set). -/
def dedupStr : List String → List String
  | [] => []
  | s :: ss => if memStr s ss then dedupStr ss else s :: dedupStr ss

/-- Insert a string into a sorted list of strings. -/
def insertStr (s : String) : List String → List String
  | [] => [s]
  | t :: ts => if strLe s t then s :: t :: ts else t :: insertStr s ts

/-- Insertion sort of strings under the code-point order. -/
def sortStrs : List String → List String
  | [] => []
  | s :: ss => insertStr s (sortStrs ss)

/-- The index of a string in a list (its categorical code once the list
is the sorted category list). -/
def idxOf (s : String) : List String → Nat
  | [] => 0
  | t :: ts => if s = t then 0 else idxOf s ts + 1

/-- The ASCII fragment of Python's `str.lower` (every category string the
endpoint compares against is ASCII). -/
def lowerChar (c : Char) : Char :=
  if 65 ≤ c.toNat ∧ c.toNat ≤ 90 then Char.ofNat (c.toNat + 32) else c

/-- Python's `str.lower` on ASCII strings. -/
def pyLower (s : String) : String := String.mk (s.data.map lowerChar)

/-- Decidable equality of `Except` results, for evaluating the pipeline
on concrete tables. -/
instance {ε α : Type} [DecidableEq ε] [DecidableEq α] :
    DecidableEq (Except ε α) := fun x y =>
  match x, y with
  | .ok a, .ok b =>
    if h : a = b then .isTrue (by rw [h])
    else .isFalse (fun hc => h (Except.ok.inj hc))
  | .error a, .error b =>
    if h : a = b then .isTrue (by rw [h])
    else .isFalse (fun hc => h (Except.error.inj hc))
  | .ok _, .error _ => .isFalse (fun hc => Except.noConfusion hc)
  | .error _, .ok _ => .isFalse (fun hc => Except.noConfusion hc)

namespace CleanData

/-- A cell of the raw `amount` column: missing/NaN, a non-numeric string,
or a numeric value.  `pd.to_numeric(..., errors := coerce)` sends strings
to NaN; `dropna` removes only the NaN state. -/
inductive AmountCell where
  | na : AmountCell
  | str (s : String) : AmountCell
  | num (q : ℚ) : AmountCell
deriving DecidableEq, Repr

/-- A cell of the raw `whistleblower` column: missing, a raw boolean, or
an integer (the state after `fillna(False).astype(int)`). -/
inductive WBCell where
  | missing : WBCell
  | boolVal (b : Bool) : WBCell
  | intVal (n : Nat) : WBCell
deriving DecidableEq, Repr

/-- `fillna(False).astype(int)` on one whistleblower cell. -/
def wbToInt : WBCell → Nat
  | .missing => 0
  | .boolVal b => if b then 1 else 0
  | .intVal n => n

/-- One row of the settlement table.  The base columns come from the raw
file; the derived columns (`settlement_year` onward) are `none` until the
cleaning steps assign them.  The `date` column is modelled by its parsed
settlement year (`none` = missing or unparseable, i.e. `pd.to_datetime`
with `errors := coerce` yields `NaT`). -/
structure Row where
  defendant : String
  amount : AmountCell
  date : Option ℤ
  fraud_type : Option String
  industry : Option String
  jurisdiction : Option String
  whistleblower : WBCell
  settlement_year : Option ℤ := none
  amount_2024 : Option ℚ := none
  fraud_type_code : Option Nat := none
  industry_code : Option Nat := none
  jurisdiction_code : Option Nat := none
  log_amount : Option ℚ := none
  defendant_size : Option Nat := none
  fraud_severity : Option ℚ := none
deriving DecidableEq, Repr

/-- `SettlementDataCleaner.clean_amounts`: drop rows with missing amount,
coerce the column to numeric (non-numeric strings become NaN), then drop
rows whose amount is `> 1_000_000_000` or `< 10_000`.  NaN compares false
against both bounds, so coerced NaN rows are kept. -/
def clean_amounts (t : List Row) : List Row :=
  let dropped := t.filter (fun r => r.amount ≠ .na)
  let coerced := dropped.map (fun r =>
    { r with amount := match r.amount with
                       | .str _ => .na
                       | c => c })
  coerced.filter (fun r =>
    match r.amount with
    | .num q => ¬ (q > 1000000000 ∨ q < 10000)
    | _ => True)

/-- The CPI multiplier table of `_adjust_for_inflation`, embedded as the
if-chain equivalent of `cpi_multipliers.get(year, 1.5)` (the dictionary
keys 2024..2010 are pairwise distinct, so lookup order is immaterial). -/
def cpiMultiplier (year : ℤ) : ℚ :=
  if year = 2024 then 1
  else if year = 2023 then 104/100
  else if year = 2022 then 112/100
  else if year = 2021 then 117/100
  else if year = 2020 then 121/100
  else if year = 2019 then 124/100
  else if year = 2018 then 128/100
  else if year = 2017 then 131/100
  else if year = 2016 then 134/100
  else if year = 2015 then 134/100
  else if year = 2014 then 137/100
  else if year = 2013 then 140/100
  else if year = 2012 then 143/100
  else if year = 2011 then 147/100
  else if year = 2010 then 151/100
  else 3/2

/-- The key/value pairs of the `cpi_multipliers` dictionary, for stating
that lookups inside the table agree with the table entries. -/
def cpi_multipliers : List (ℤ × ℚ) :=
  [(2024, 1), (2023, 104/100), (2022, 112/100), (2021, 117/100),
   (2020, 121/100), (2019, 124/100), (2018, 128/100), (2017, 131/100),
   (2016, 134/100), (2015, 134/100), (2014, 137/100), (2013, 140/100),
   (2012, 143/100), (2011, 147/100), (2010, 151/100)]

/-- `_adjust_for_inflation(amount, year)` applied to one (possibly NaN)
amount cell: `amount * cpi_multipliers.get(year, 1.5)`; NaN propagates. -/
def adjust_for_inflation (a : AmountCell) (year : ℤ) : Option ℚ :=
  match a with
  | .num q => some (q * cpiMultiplier year)
  | _ => none

/-- `SettlementDataCleaner.clean_dates`: drop rows whose date failed to
parse, record `settlement_year`, and compute `amount_2024` by the CPI
adjustment. -/
def clean_dates (t : List Row) : List Row :=
  (t.filter (fun r => r.date ≠ none)).map (fun r =>
    match r.date with
    | some y => { r with settlement_year := some y,
                         amount_2024 := adjust_for_inflation r.amount y }
    | none => r)

/-- The `fraud_type_mapping` dictionary (duplicated verbatim in
`clean_data.py` and `feature_engineering.py`). -/
def fraud_type_mapping : List (String × Nat) :=
  [("healthcare", 0), ("defense", 1), ("covid", 2), ("procurement", 3),
   ("grant", 4), ("housing", 5), ("education", 6), ("other", 7)]

/-- The `industry_mapping` dictionary (duplicated verbatim in
`clean_data.py` and `feature_engineering.py`). -/
def industry_mapping : List (String × Nat) :=
  [("healthcare", 0), ("defense_contractor", 1), ("pharmaceutical", 2),
   ("technology", 3), ("construction", 4), ("education", 5),
   ("financial", 6), ("other", 7)]

/-- `Series.map(dict)`: a value outside the dictionary becomes NaN. -/
def mapDict (m : List (String × Nat)) (s : String) : Option Nat :=
  match m with
  | [] => none
  | (k, v) :: rest => if s = k then some v else mapDict rest s

/-- `pd.Categorical(col).codes` categories: the sorted distinct values of
the column. -/
def catCategories (col : List String) : List String :=
  sortStrs (dedupStr col)

/-- The categorical code `pd.Categorical(col).codes` assigns to one value
of the column: its index among the sorted distinct values. -/
def catCode (col : List String) (s : String) : Nat :=
  idxOf s (catCategories col)

/-- `SettlementDataCleaner.encode_categories`: fill the categorical
columns (`other` / `other` / `Unknown` / `False`), then map fraud type and
industry through the fixed dictionaries, assign jurisdiction codes by the
stable categorical index over the (filled) jurisdiction column, and turn
the whistleblower column into 0/1 integers. -/
def encode_categories (t : List Row) : List Row :=
  let filled := t.map (fun r =>
    { r with fraud_type := some (r.fraud_type.getD "other"),
             industry := some (r.industry.getD "other"),
             jurisdiction := some (r.jurisdiction.getD "Unknown"),
             whistleblower := .intVal (wbToInt r.whistleblower) })
  let jcol := filled.map (fun r => r.jurisdiction.getD "Unknown")
  filled.map (fun r =>
    { r with fraud_type_code := mapDict fraud_type_mapping (r.fraud_type.getD "other"),
             industry_code := mapDict industry_mapping (r.industry.getD "other"),
             jurisdiction_code := some (catCode jcol (r.jurisdiction.getD "Unknown")) })

/-- The `severity_weights` dictionary of `create_features`, embedded as
the if-chain equivalent of `severity_weights.get(fraud_type, 1.0)`. -/
def severityWeight (ft : String) : ℚ :=
  if ft = "healthcare" then 12/10
  else if ft = "defense" then 15/10
  else if ft = "covid" then 13/10
  else if ft = "procurement" then 1
  else if ft = "grant" then 8/10
  else if ft = "housing" then 11/10
  else if ft = "education" then 9/10
  else if ft = "other" then 1
  else 1

/-- The bin `pd.cut(x, bins := [0, 1_000_000, 10_000_000, inf],
labels := [0, 1, 2])` assigns to one value.  `pd.cut` uses right-closed
intervals `(0, 10^6]`, `(10^6, 10^7]`, `(10^7, ∞)`; values `≤ 0` (and NaN
inputs) fall outside every bin and become NaN. -/
def cutDefendantSize (a : Option ℚ) : Option Nat :=
  match a with
  | none => none
  | some q =>
    if q ≤ 0 then none
    else if q ≤ 1000000 then some 0
    else if q ≤ 10000000 then some 1
    else some 2

/-- `SettlementDataCleaner.create_features`: assign `log_amount`,
`defendant_size` and `fraud_severity`.  The `.astype(int)` cast on the
`pd.cut` result raises (`Cannot convert non-finite values`) when any row
falls outside the bins, which aborts `clean_all`; this is modelled by the
`Except` error. -/
def create_features (lg : ℚ → ℚ) (t : List Row) : Except String (List Row) :=
  if t.all (fun r => (cutDefendantSize r.amount_2024).isSome) then
    .ok (t.map (fun r =>
      { r with log_amount := r.amount_2024.map lg,
               defendant_size := cutDefendantSize r.amount_2024,
               fraud_severity := r.amount_2024.map
                 (fun a => lg a * severityWeight (r.fraud_type.getD "other")) }))
  else
    .error "Cannot convert non-finite values (NA or inf) to integer"

/-- The deduplication key of `drop_duplicates(subset := [defendant,
amount, settlement_year])`. -/
def dedupKey (r : Row) : String × AmountCell × Option ℤ :=
  (r.defendant, r.amount, r.settlement_year)

/-- Worker for `drop_duplicates` keeping the first occurrence of each
key. -/
def dedupAux : List (String × AmountCell × Option ℤ) → List Row → List Row
  | _, [] => []
  | seen, r :: rs =>
    if dedupKey r ∈ seen then dedupAux seen rs
    else r :: dedupAux (dedupKey r :: seen) rs

/-- `SettlementDataCleaner.remove_duplicates`. -/
def remove_duplicates (t : List Row) : List Row :=
  dedupAux [] t

/-- The issue list computed by `SettlementDataCleaner.validate_data`: a
minimum-row-count issue and a positivity issue on `amount_2024` (the
NaN-aware pandas comparison `amount_2024 <= 0` is false on NaN).  The
required-column check cannot fire inside `clean_all` (the preceding steps
always assign those columns) and the null check only logs a warning. -/
def validate_issues (t : List Row) : List String :=
  (if t.length < 20 then
     ["Insufficient data: only " ++ toString t.length ++ " records (need 20+ for testing)"]
   else []) ++
  (if t.any (fun r => match r.amount_2024 with
                      | some q => decide (q ≤ 0)
                      | none => false) then
     ["Negative or zero amounts found"]
   else [])

/-- The failure modes of `clean_all`: the `.astype(int)` crash inside
`create_features`, or a `ValueError` after a failed validation. -/
inductive CleanError where
  | featureCast (msg : String) : CleanError
  | validationFailed (issues : List String) : CleanError
deriving DecidableEq, Repr

/-- The transformation part of `clean_all`: `clean_amounts`, `clean_dates`,
`encode_categories`, `create_features`, `remove_duplicates`, in source
order (validation excluded). -/
def cleaning_steps (lg : ℚ → ℚ) (t : List Row) : Except String (List Row) :=
  (create_features lg (encode_categories (clean_dates (clean_amounts t)))).map
    remove_duplicates

/-- `SettlementDataCleaner.clean_all` (with `load_data` abstracted into
the input table): run the cleaning steps, then `validate_data`, raising
when any issue is reported. -/
def clean_all (lg : ℚ → ℚ) (t : List Row) : Except CleanError (List Row) :=
  match cleaning_steps lg t with
  | .error m => .error (.featureCast m)
  | .ok t5 =>
    if validate_issues t5 = [] then .ok t5
    else .error (.validationFailed (validate_issues t5))

end CleanData

namespace Engine

open CleanData (fraud_type_mapping industry_mapping severityWeight mapDict)

/-- The single-row DataFrame built by
`SettlementFeatureEngine.create_prediction_input` before the derived
features are added: the dictionary lookups `fraud_type_mapping.get(
fraud_type.lower(), 7)` / `industry_mapping.get(industry.lower(), 7)`,
the `hash(jurisdiction) % 50` jurisdiction code, the strict-inequality
defendant-size thresholds, and `fraud_severity =
log1p(damages) * severity_weights.get(fraud_type.lower(), 1.0)`. -/
structure PredBase where
  fraud_type_code : ℤ
  industry_code : ℤ
  jurisdiction_code : ℤ
  whistleblower : ℤ
  defendant_size : ℤ
  settlement_year : ℤ
  log_amount : ℚ
  fraud_severity : ℚ

/-- Builds the base prediction row of `create_prediction_input`.
`lg` models `np.log1p`, `pyHash` models Python's string `hash`. -/
def predBase (lg : ℚ → ℚ) (pyHash : String → ℤ) (fraud_type : String)
    (damages_claimed : ℚ) (industry : String) (jurisdiction : String)
    (whistleblower_present : Bool) (settlement_year : ℤ) : PredBase :=
  { fraud_type_code := ((mapDict fraud_type_mapping (pyLower fraud_type)).getD 7 : Nat),
    industry_code := ((mapDict industry_mapping (pyLower industry)).getD 7 : Nat),
    jurisdiction_code := (pyHash jurisdiction) % 50,
    whistleblower := if whistleblower_present then 1 else 0,
    defendant_size :=
      if damages_claimed < 1000000 then 0
      else if damages_claimed < 10000000 then 1
      else 2,
    settlement_year := settlement_year,
    log_amount := lg damages_claimed,
    fraud_severity := lg damages_claimed * severityWeight (pyLower fraud_type) }

/-- `SettlementFeatureEngine.create_features` applied to the single
prediction row: the fixed 12-entry feature vector in `feature_columns`
order (base codes, the interaction terms, `years_since_2010` and
`jurisdiction_risk = jurisdiction_code % 3`). -/
def engine_create_features (b : PredBase) : List ℚ :=
  [(b.fraud_type_code : ℚ),
   (b.industry_code : ℚ),
   (b.jurisdiction_code : ℚ),
   (b.whistleblower : ℚ),
   (b.defendant_size : ℚ),
   (b.settlement_year : ℚ),
   b.fraud_severity,
   ((b.industry_code * b.fraud_type_code : ℤ) : ℚ),
   ((b.settlement_year - 2010 : ℤ) : ℚ),
   ((b.whistleblower * b.fraud_type_code : ℤ) : ℚ),
   ((b.jurisdiction_code % 3 : ℤ) : ℚ),
   ((b.defendant_size * b.fraud_type_code : ℤ) : ℚ)]

/-- The fitted state of a `StandardScaler`: per-feature means and scales. -/
structure FittedScaler where
  mean : List ℚ
  scale : List ℚ

/-- A `StandardScaler` is unfitted until `fit_transform` ran or a saved
scaler was loaded; `transform` on an unfitted scaler raises
`NotFittedError`. -/
inductive ScalerSt where
  | unfitted : ScalerSt
  | fitted (p : FittedScaler) : ScalerSt

/-- `scaler.transform` on one feature vector: `(x - mean) / scale`
per feature. -/
def scalerTransform (s : FittedScaler) (x : List ℚ) : List ℚ :=
  (x.zip (s.mean.zip s.scale)).map (fun p => (p.1 - p.2.1) / p.2.2)

/-- `SettlementFeatureEngine.create_prediction_input`: build the base
row, derive the 12 features, and scale them with the fitted scaler.
An unfitted scaler makes `transform` raise `NotFittedError`. -/
def create_prediction_input (sc : ScalerSt) (lg : ℚ → ℚ)
    (pyHash : String → ℤ) (fraud_type : String) (damages_claimed : ℚ)
    (industry : String) (jurisdiction : String)
    (whistleblower_present : Bool) (settlement_year : ℤ) :
    Except String (List ℚ) :=
  match sc with
  | .unfitted => .error "This StandardScaler instance is not fitted yet"
  | .fitted s => .ok (scalerTransform s (engine_create_features
      (predBase lg pyHash fraud_type damages_claimed industry jurisdiction
        whistleblower_present settlement_year)))

end Engine

namespace Serving

open Engine

/-- The state of the `RandomForestRegressor` held by a
`SettlementPredictor`: `__init__` constructs it unfitted (no
`estimators_` attribute); `load_model` replaces it with a fitted forest,
modelled by the per-tree prediction functions. -/
inductive ForestSt where
  | unfitted : ForestSt
  | fitted (trees : List (List ℚ → ℚ)) : ForestSt

/-- A `SettlementPredictor`: `__init__` always assigns both `self.model`
(an unfitted forest) and `self.feature_engine` (with an unfitted scaler),
so the Python attribute `model` exists on every constructed predictor. -/
structure Predictor where
  model : ForestSt
  scaler : ScalerSt

/-- `hasattr(predictor, "model")`: `SettlementPredictor.__init__`
unconditionally assigns `self.model`, so this is true for every
constructed predictor. -/
def hasattrModel (_ : Predictor) : Bool := true

/-- Population mean of a list of rationals (`np.mean`). -/
def listMean (l : List ℚ) : ℚ := l.sum / l.length

/-- Population variance of a list of rationals (`np.std` squared). -/
def popVariance (l : List ℚ) : ℚ :=
  ((l.map (fun x => (x - listMean l) ^ 2)).sum) / l.length

/-- Linear interpolation between the order statistics of a sorted array
at fractional position `p`: with `i = ⌊p⌋`, the value
`s[i] + (p - i) * (s[i+1] - s[i])` (the second read falls back to `s[i]`
at the top end, where `p - i = 0`). -/
def linInterp (s : List ℚ) (p : ℚ) : ℚ :=
  let i : Nat := (Int.floor p).toNat
  let a := s.getD i 0
  let b := s.getD (i + 1) a
  a + (p - (i : ℚ)) * (b - a)

/-- `np.percentile(l, q)` with the default linear interpolation:
sort, take `pos = (n-1)·q/100`, and interpolate between the neighbouring
order statistics. -/
def percentile (l : List ℚ) (q : ℚ) : ℚ :=
  let s := List.insertionSort (· ≤ ·) l
  linInterp s (((s.length : ℚ) - 1) * q / 100)

/-- `np.expm1` on a rational prediction: the genuine real `exp x - 1`. -/
noncomputable def expm1 (q : ℚ) : ℝ := Real.exp q - 1

/-- `np.std` of the per-tree predictions: the genuine real square root of
the population variance. -/
noncomputable def predStd (l : List ℚ) : ℝ := Real.sqrt (popVariance l)

/-- The response of `predict_settlement_range` / `POST predict`. -/
structure PredictionResponse where
  predicted_low : ℝ
  predicted_mid : ℝ
  predicted_high : ℝ
  confidence : ℝ
  input_damages : ℚ

/-- `SettlementPredictor.predict_settlement_range`: build the scaled
feature vector, collect one prediction per tree of the fitted forest
(`self.model.estimators_` raises `AttributeError` when the forest is
unfitted), take the 25th/50th/75th percentiles, back-transform with
`expm1`, and attach the variance-based confidence
`1 - min(std/2, 0.5)`.  `np.percentile` raises on an empty prediction
array. -/
noncomputable def predict_settlement_range (P : Predictor) (lg : ℚ → ℚ)
    (pyHash : String → ℤ) (fraud_type : String) (damages_claimed : ℚ)
    (industry : String) (jurisdiction : String)
    (whistleblower_present : Bool) (settlement_year : ℤ) :
    Except String PredictionResponse :=
  match create_prediction_input P.scaler lg pyHash fraud_type
    damages_claimed industry jurisdiction whistleblower_present
    settlement_year with
  | .error e => .error e
  | .ok x =>
    match P.model with
    | .unfitted => .error "AttributeError: no attribute estimators underscore"
    | .fitted trees =>
      let preds := trees.map (fun t => t x)
      if preds.isEmpty then
        .error "zero-size array to reduction operation"
      else
        .ok { predicted_low := expm1 (percentile preds 25),
              predicted_mid := expm1 (percentile preds 50),
              predicted_high := expm1 (percentile preds 75),
              confidence := 1 - min (predStd preds / 2) (1/2),
              input_damages := damages_claimed }

/-- An HTTP error response (`HTTPException` or a request-validation
error): status code and detail message. -/
structure ApiError where
  status : Nat
  detail : String
deriving DecidableEq, Repr

/-- The raw body of one prediction request, before pydantic
validation. -/
structure RawRequest where
  fraud_type : String
  damages_claimed : ℚ
  industry : String
  jurisdiction : String
  whistleblower_present : Bool := false
  settlement_year : ℤ := 2024
deriving DecidableEq, Repr

/-- A request that passed pydantic validation (`damages_claimed > 0`,
`2010 ≤ settlement_year ≤ 2030`). -/
structure PredictionRequest where
  fraud_type : String
  damages_claimed : ℚ
  industry : String
  jurisdiction : String
  whistleblower_present : Bool
  settlement_year : ℤ
deriving DecidableEq, Repr

/-- Pydantic validation of one `PredictionRequest` body: the
`Field(gt := 0)` bound on `damages_claimed` and the
`Field(ge := 2010, le := 2030)` bounds on `settlement_year`. -/
def parseRequest (r : RawRequest) : Except String PredictionRequest :=
  if 0 < r.damages_claimed then
    if 2010 ≤ r.settlement_year ∧ r.settlement_year ≤ 2030 then
      .ok { fraud_type := r.fraud_type,
            damages_claimed := r.damages_claimed,
            industry := r.industry,
            jurisdiction := r.jurisdiction,
            whistleblower_present := r.whistleblower_present,
            settlement_year := r.settlement_year }
    else .error "settlement_year: input should be between 2010 and 2030"
  else .error "damages_claimed: input should be greater than 0"

/-- The `valid_fraud_types` list of `predict_settlement`. -/
def valid_fraud_types : List String :=
  ["healthcare", "defense", "covid", "procurement", "grant", "housing",
   "education", "other"]

/-- The `valid_industries` list of `predict_settlement`. -/
def valid_industries : List String :=
  ["healthcare", "defense_contractor", "pharmaceutical", "technology",
   "construction", "education", "financial", "other"]

/-- The 400 detail for an invalid fraud type, listing the accepted
values. -/
def fraudTypeDetail : String :=
  "Invalid fraud_type. Must be one of: " ++
    String.intercalate ", " valid_fraud_types

/-- The 400 detail for an invalid industry, listing the accepted
values. -/
def industryDetail : String :=
  "Invalid industry. Must be one of: " ++
    String.intercalate ", " valid_industries

/-- `@app.on_event(startup) load_model`: always constructs a
`SettlementPredictor` (unfitted forest, unfitted scaler); when both
artifact files exist it loads them.  With no artifacts present no
exception is raised, so the `except` branch that would reset `predictor`
to `None` is not taken. -/
def startup (artifacts : Option (List (List ℚ → ℚ) × FittedScaler)) :
    Option Predictor :=
  some (match artifacts with
        | some (m, s) => { model := .fitted m, scaler := .fitted s }
        | none => { model := .unfitted, scaler := .unfitted })

/-- The `model_loaded` field of the health-check response:
`predictor is not None and hasattr(predictor, "model")`. -/
def healthModelLoaded (pred : Option Predictor) : Bool :=
  match pred with
  | none => false
  | some p => hasattrModel p

/-- `POST /predict` after request parsing (`predict_settlement`): the
model-availability guard (`not predictor or not
hasattr(predictor, "model")` gives 503), fraud-type and industry
validation against the fixed vocabularies (400 listing the accepted
values), then delegation to `predict_settlement_range` with every other
exception turned into a 500. -/
noncomputable def predict_settlement (pred : Option Predictor)
    (lg : ℚ → ℚ) (pyHash : String → ℤ) (req : PredictionRequest) :
    Except ApiError PredictionResponse :=
  match pred with
  | none => .error ⟨503, "Model not loaded. Please train the model first."⟩
  | some P =>
    if ¬ hasattrModel P then
      .error ⟨503, "Model not loaded. Please train the model first."⟩
    else if !(memStr (pyLower req.fraud_type) valid_fraud_types) then
      .error ⟨400, fraudTypeDetail⟩
    else if !(memStr (pyLower req.industry) valid_industries) then
      .error ⟨400, industryDetail⟩
    else
      match predict_settlement_range P lg pyHash req.fraud_type
        req.damages_claimed req.industry req.jurisdiction
        req.whistleblower_present req.settlement_year with
      | .ok resp => .ok resp
      | .error e => .error ⟨500, "Prediction failed: " ++ e⟩

/-- The full `POST /predict` route: pydantic parsing (422 on a validation
failure) followed by `predict_settlement`. -/
noncomputable def predictRoute (pred : Option Predictor) (lg : ℚ → ℚ)
    (pyHash : String → ℤ) (raw : RawRequest) :
    Except ApiError PredictionResponse :=
  match parseRequest raw with
  | .error m => .error ⟨422, m⟩
  | .ok req => predict_settlement pred lg pyHash req

/-- One entry of the batch response: the per-item outcome collected by
`batch_predict`. -/
inductive ItemResult where
  | success (input : PredictionRequest) (prediction : PredictionResponse) :
      ItemResult
  | failed (input : PredictionRequest) (err : String) : ItemResult

/-- The `status` string of one batch entry. -/
def ItemResult.statusStr : ItemResult → String
  | .success _ _ => "success"
  | .failed _ _ => "failed"

/-- The aggregate batch response. -/
structure BatchResponse where
  total : Nat
  successful : Nat
  failed : Nat
  results : List ItemResult

/-- `POST /batch-predict` after request parsing (`batch_predict`): the
model-availability guard (503), the `len(requests) > 100` guard (400)
before any item is processed, then the per-item loop in which a
prediction exception marks that item failed without aborting the
batch.  Categories are NOT validated here: unknown fraud types and
industries flow into `create_prediction_input`, which maps them to code
7. -/
noncomputable def batch_predict (pred : Option Predictor) (lg : ℚ → ℚ)
    (pyHash : String → ℤ) (items : List PredictionRequest) :
    Except ApiError BatchResponse :=
  match pred with
  | none => .error ⟨503, "Model not loaded"⟩
  | some P =>
    if ¬ hasattrModel P then .error ⟨503, "Model not loaded"⟩
    else if 100 < items.length then
      .error ⟨400, "Batch size limited to 100 predictions"⟩
    else
      let results := items.map (fun it =>
        match predict_settlement_range P lg pyHash it.fraud_type
          it.damages_claimed it.industry it.jurisdiction
          it.whistleblower_present it.settlement_year with
        | .ok resp => ItemResult.success it resp
        | .error e => ItemResult.failed it e)
      .ok { total := items.length,
            successful := (results.filter
              (fun r => r.statusStr = "success")).length,
            failed := (results.filter
              (fun r => r.statusStr = "failed")).length,
            results := results }

/-- The full `POST /batch-predict` route: FastAPI parses the whole body
into `List[PredictionRequest]` first, so a single invalid item rejects
the entire request with a 422 before `batch_predict` runs. -/
noncomputable def batchRoute (pred : Option Predictor) (lg : ℚ → ℚ)
    (pyHash : String → ℤ) (raws : List RawRequest) :
    Except ApiError BatchResponse :=
  match raws.mapM parseRequest with
  | .error m => .error ⟨422, m⟩
  | .ok items => batch_predict pred lg pyHash items

/-- The HTTP status of a route result: `none` for a success response. -/
def statusOf {α : Type} : Except ApiError α → Option Nat
  | .error e => some e.status
  | .ok _ => none

end Serving

/-! ### Concrete instances used by witnesses and counterexamples -/

/-- A concrete reading of `np.log1p`: only determinism of the pipeline in
the log primitive matters to the table-level claims, so witnesses may
instantiate `lg` with any function; the identity keeps every value
decidable. -/
def lg0 : ℚ → ℚ := fun q => q

/-- A concrete reading of Python's randomized string `hash`. -/
def h0 : String → ℤ := fun _ => 0

namespace CleanData

/-- A fully cleaned and internally consistent row: amount 100,000 settled
in 2020 (`amount_2024 = 100000 × 1.21 = 121000`), healthcare fraud in the
healthcare industry, jurisdiction `J`, with every derived column holding
exactly the value the cleaning steps recompute for it under `lg0`. -/
def mkCleanRow (i : Nat) : Row :=
  { defendant := "D" ++ toString i,
    amount := .num 100000,
    date := some 2020,
    fraud_type := some "healthcare",
    industry := some "healthcare",
    jurisdiction := some "J",
    whistleblower := .intVal 1,
    settlement_year := some 2020,
    amount_2024 := some 121000,
    fraud_type_code := some 0,
    industry_code := some 0,
    jurisdiction_code := some 0,
    log_amount := some 121000,
    defendant_size := some 0,
    fraud_severity := some 145200 }

/-- Twenty distinct-defendant clean rows: a fixpoint table for the
cleaning pipeline that also passes validation. -/
def cleanTable20 : List Row := (List.range 20).map mkCleanRow

/-- A raw row surviving every cleaning filter. -/
def rawRow (defendant : String) (amount : ℚ) (year : ℤ)
    (jurisdiction : String) : Row :=
  { defendant := defendant,
    amount := .num amount,
    date := some year,
    fraud_type := some "healthcare",
    industry := some "healthcare",
    jurisdiction := some jurisdiction,
    whistleblower := .boolVal false }

/-- Four raw rows settling in 2024 (CPI multiplier 1) with amounts at the
claim's four boundary values: 999,999.99, 1,000,000, 10,000,000 and
10,000,000.01. -/
def c1raw : List Row :=
  [rawRow "A" (99999999/100) 2024 "J", rawRow "B" 1000000 2024 "J",
   rawRow "C" 10000000 2024 "J", rawRow "D" (1000000001/100) 2024 "J"]

/-- The `defendant_size` column of a cleaning-steps result (`none` when
the pipeline raised). -/
def sizesOf (e : Except String (List Row)) : Option (List (Option Nat)) :=
  match e with
  | .ok t => some (t.map (fun r => r.defendant_size))
  | .error _ => none

/-- A one-row table whose single row is already past `clean_dates` with
`amount_2024` exactly 1,000,000, fed directly to the cleaner's
`create_features`. -/
def c1wrow : Row :=
  { rawRow "W" 1000000 2024 "J" with
    settlement_year := some 2024, amount_2024 := some 1000000 }

/-- The row `create_features` produces from `c1wrow` under `lg0`. -/
def c1wrowOut : Row :=
  { c1wrow with log_amount := some 1000000, defendant_size := some 0,
                fraud_severity := some 1200000 }

/-- 51 raw rows with pairwise distinct jurisdictions `J0` … `J50`: more
distinct jurisdictions than the 50 residues of the ad-hoc query path's
`hash(jurisdiction) % 50` encoding. -/
def c2tab : List Row :=
  (List.range 51).map (fun i =>
    rawRow ("D" ++ toString i) 100000 2024 ("J" ++ toString i))

/-- Three raw rows in which the second duplicates the first's
`(defendant, amount, settlement_year)` key while carrying the
alphabetically first jurisdiction `A`; deduplication removes that row and
with it the jurisdiction category `A`. -/
def c9raw : List Row :=
  [rawRow "D1" 100000 2020 "B",
   rawRow "D1" 100000 2020 "A",
   rawRow "D3" 100000 2020 "C"]

/-- A cleaned row as produced by the cleaning steps from
`rawRow d 100000 2020 j` under `lg0`, with the given jurisdiction
code. -/
def cleanedRow2020 (defendant : String) (jurisdiction : String)
    (jcode : Nat) : Row :=
  { defendant := defendant,
    amount := .num 100000,
    date := some 2020,
    fraud_type := some "healthcare",
    industry := some "healthcare",
    jurisdiction := some jurisdiction,
    whistleblower := .intVal 0,
    settlement_year := some 2020,
    amount_2024 := some 121000,
    fraud_type_code := some 0,
    industry_code := some 0,
    jurisdiction_code := some jcode,
    log_amount := some 121000,
    defendant_size := some 0,
    fraud_severity := some 145200 }

/-- The output of the cleaning steps on `c9raw`: the duplicate row is
gone, and the surviving rows carry jurisdiction codes 1 and 2 assigned
while category `A` was still present. -/
def c9mid : List Row :=
  [cleanedRow2020 "D1" "B" 1, cleanedRow2020 "D3" "C" 2]

/-- The output of re-running the cleaning steps on `c9mid`: jurisdiction
codes are re-assigned over the two-category column `B`, `C`. -/
def c9mid2 : List Row :=
  [cleanedRow2020 "D1" "B" 0, cleanedRow2020 "D3" "C" 1]

/-- A numeric amount within the outlier bounds `[10^4, 10^9]` (missing
and non-numeric amounts fail the check). -/
def amountInRangeB (a : AmountCell) : Bool :=
  match a with
  | .num q => decide (10000 ≤ q) && decide (q ≤ 1000000000)
  | _ => false

/-- The preconditions the idempotence claim places on an "already
cleaned" table: no duplicate `(defendant, amount, settlement_year)`
triple, no amount outside `[10^4, 10^9]`, and no missing amount, date or
categorical field. -/
def alreadyCleanedPre (t : List Row) : Prop :=
  (t.map dedupKey).Nodup ∧
  ∀ r ∈ t,
    amountInRangeB r.amount = true ∧
    r.date.isSome = true ∧ r.fraud_type.isSome = true ∧
    r.industry.isSome = true ∧ r.jurisdiction.isSome = true ∧
    r.whistleblower ≠ .missing

instance (t : List Row) : Decidable (alreadyCleanedPre t) := by
  unfold alreadyCleanedPre; infer_instance

/-- The jurisdiction column of a table, after the `Unknown` fill. -/
def jurisdictionColumn (t : List Row) : List String :=
  t.map (fun r => r.jurisdiction.getD "Unknown")

/-- One row of a fixpoint table for the cleaning steps, as a Boolean
check: the base columns are present and within the filters, and every
derived column holds exactly the value the steps recompute for it
(`col` is the jurisdiction column of the enclosing table, against which
the stored jurisdiction code must be consistent). -/
def rowCleanB (lg : ℚ → ℚ) (col : List String) (r : Row) : Bool :=
  (match r.amount with
   | .num q => decide (10000 ≤ q) && decide (q ≤ 1000000000)
   | _ => false) &&
  r.date.isSome &&
  decide (r.settlement_year = r.date) &&
  decide (r.amount_2024 = adjust_for_inflation r.amount (r.date.getD 0)) &&
  r.fraud_type.isSome && r.industry.isSome && r.jurisdiction.isSome &&
  (match r.whistleblower with | .intVal _ => true | _ => false) &&
  decide (r.fraud_type_code = mapDict fraud_type_mapping (r.fraud_type.getD "other")) &&
  decide (r.industry_code = mapDict industry_mapping (r.industry.getD "other")) &&
  decide (r.jurisdiction_code = some (catCode col (r.jurisdiction.getD "Unknown"))) &&
  decide (r.log_amount = r.amount_2024.map lg) &&
  decide (r.defendant_size = cutDefendantSize r.amount_2024) &&
  decide (r.fraud_severity = r.amount_2024.map
    (fun a => lg a * severityWeight (r.fraud_type.getD "other")))

/-- A table on which the cleaning pipeline acts as the identity: at least
20 rows (the validation minimum), no duplicate keys, and every row
internally consistent — including the jurisdiction codes, which must
match the categorical encoding of the table's own jurisdiction column. -/
def isCleanTable (lg : ℚ → ℚ) (t : List Row) : Prop :=
  20 ≤ t.length ∧ (t.map dedupKey).Nodup ∧
  ∀ r ∈ t, rowCleanB lg (jurisdictionColumn t) r = true

instance (lg : ℚ → ℚ) (t : List Row) : Decidable (isCleanTable lg t) := by
  unfold isCleanTable; infer_instance

/-- A one-row raw table for exercising the row-level invariants of the
cleaning steps on a table too small to pass validation. -/
def c10raw : List Row := [rawRow "A" 100000 2020 "J"]

/-- The cleaning-steps output on `c10raw` under `lg0`. -/
def c10out : List Row := [cleanedRow2020 "A" "J" 0]

end CleanData

namespace Serving

/-- A loaded predictor: a single-tree forest predicting constantly 0 and
an identity-parameter scaler over the 12 features. -/
noncomputable def P0 : Predictor :=
  { model := .fitted [fun _ => 0],
    scaler := .fitted { mean := List.replicate 12 0,
                        scale := List.replicate 12 1 } }

/-- A valid request body. -/
def goodRaw : RawRequest :=
  { fraud_type := "healthcare", damages_claimed := 1000000,
    industry := "healthcare", jurisdiction := "J",
    whistleblower_present := false, settlement_year := 2024 }

/-- The parsed form of `goodRaw`. -/
def goodReq : PredictionRequest :=
  { fraud_type := "healthcare", damages_claimed := 1000000,
    industry := "healthcare", jurisdiction := "J",
    whistleblower_present := false, settlement_year := 2024 }

/-- `goodRaw` with `damages_claimed = 0`, violating the pydantic
`gt = 0` bound. -/
def badRaw : RawRequest := { goodRaw with damages_claimed := 0 }

/-- A 100-item batch whose item #50 (index 49) has
`damages_claimed = 0`. -/
def batch100bad : List RawRequest :=
  List.replicate 49 goodRaw ++ [badRaw] ++ List.replicate 50 goodRaw

/-- The spec's example request. -/
def exampleRaw : RawRequest :=
  { fraud_type := "healthcare", damages_claimed := 10000000,
    industry := "pharmaceutical",
    jurisdiction := "Southern District of New York",
    whistleblower_present := true, settlement_year := 2024 }

/-- A parsed request whose fraud type `alien` is outside the 8-value
vocabulary. -/
def alienReq : PredictionRequest :=
  { fraud_type := "alien", damages_claimed := 5000000,
    industry := "technology", jurisdiction := "X",
    whistleblower_present := false, settlement_year := 2024 }

/-- The response `predict_settlement_range` produces on `P0` for the
spec's example query. -/
noncomputable def respP0 : PredictionResponse :=
  match predict_settlement_range P0 lg0 h0 "healthcare" 10000000
    "pharmaceutical" "Southern District of New York" true 2024 with
  | .ok r => r
  | .error _ => ⟨0, 0, 0, 0, 0⟩

end Serving

/-! ### Theorems -/

open CleanData Serving

/-- Helper: unfolding a successful `create_features` run. -/
theorem create_features_ok {lg : ℚ → ℚ} {t ct : List Row}
    (hok : create_features lg t = Except.ok ct) :
    ct = t.map (fun r =>
      { r with log_amount := r.amount_2024.map lg,
               defendant_size := cutDefendantSize r.amount_2024,
               fraud_severity := r.amount_2024.map
                 (fun a => lg a * severityWeight (r.fraud_type.getD "other")) }) := by
  unfold create_features at hok
  split at hok
  · exact (Except.ok.inj hok).symm
  · exact absurd hok (fun hc => Except.noConfusion hc)

unseal Rat.mul Rat.inv Rat.add Rat.sub in
/-- C1 (corrected): on the cleaner's own path, `pd.cut` with its default
right-closed bins assigns the threshold amounts to the LOWER category:
four rows cleaned with `amount_2024` at the claim's boundary values
999,999.99 / 1,000,000 / 10,000,000 / 10,000,000.01 receive
`defendant_size` 0, 0, 1, 2 — not the 0, 1, 2, 2 the claim states. -/
theorem C1_defendant_size_counterexample :
    sizesOf (cleaning_steps lg0 c1raw) =
      some [some 0, some 0, some 1, some 2] ∧
    ¬ sizesOf (cleaning_steps lg0 c1raw) =
      some [some 0, some 1, some 2, some 2] := by
  constructor
  · decide
  · decide

/-- C1 (amended): for every row of a successful `create_features` run
with a positive `amount_2024 = a`, `defendant_size` is 0 for
`a ≤ 1,000,000`, 1 for `1,000,000 < a ≤ 10,000,000`, and 2 above: the
thresholds 1,000,000 and 10,000,000 land in the lower category
(`pd.cut` right-closed bins), unlike the ad-hoc query path of
`create_prediction_input`, whose strict `<` comparisons put them in the
higher category. -/
theorem C1_defendant_size_boundary (lg : ℚ → ℚ) (t ct : List Row)
    (r : Row) (a : ℚ) (hok : create_features lg t = Except.ok ct)
    (hr : r ∈ ct) (ha : r.amount_2024 = some a) (hpos : 0 < a) :
    r.defendant_size =
      some (if a ≤ 1000000 then 0 else if a ≤ 10000000 then 1 else 2) := by
  have hct := create_features_ok hok
  subst hct
  obtain ⟨r', _, rfl⟩ := List.mem_map.mp hr
  simp only at ha ⊢
  rw [ha]
  show (if a ≤ 0 then (none : Option Nat)
        else if a ≤ 1000000 then some 0
        else if a ≤ 10000000 then some 1 else some 2) = _
  rw [if_neg (not_le.mpr hpos)]
  split_ifs <;> rfl

unseal Rat.mul Rat.inv Rat.add Rat.sub in
/-- C1 witness: a concrete one-row table with `amount_2024` exactly at
the 1,000,000 threshold, on which the amended boundary rule evaluates to
category 0. -/
theorem C1_defendant_size_boundary_witness :
    create_features lg0 [c1wrow] = Except.ok [c1wrowOut] ∧
    c1wrowOut ∈ [c1wrowOut] ∧ c1wrowOut.amount_2024 = some 1000000 ∧
    (0 : ℚ) < 1000000 ∧ c1wrowOut.defendant_size = some 0 := by
  refine ⟨?h1, List.mem_singleton_self _, rfl, by norm_num, ?h2⟩
  · decide
  · have := C1_defendant_size_boundary lg0 [c1wrow] [c1wrowOut] c1wrowOut
      1000000 (by decide) (List.mem_singleton_self _)
      rfl (by norm_num)
    simpa using this

/-- C2 (confirmed): the jurisdiction encoding of the batch cleaning path
and of the single ad-hoc query path are different functions.  Over a
concrete 51-jurisdiction column, `encode_categories` assigns the row with
jurisdiction `J9` the stable categorical code 50, while the query path's
`hash(jurisdiction) % 50` code is below 50 for every possible hash
function, so the two paths disagree on that jurisdiction. -/
theorem C2_jurisdiction_encoding_mismatch :
    ((encode_categories c2tab).map (fun r => r.jurisdiction)).getD 9 none
      = some "J9" ∧
    ((encode_categories c2tab).map (fun r => r.jurisdiction_code)).getD 9 none
      = some 50 ∧
    ∀ (pyHash : String → ℤ) (lg : ℚ → ℚ) (ft ind : String) (dmg : ℚ)
      (wb : Bool) (yr : ℤ),
      (Engine.predBase lg pyHash ft dmg ind "J9" wb yr).jurisdiction_code < 50 ∧
      0 ≤ (Engine.predBase lg pyHash ft dmg ind "J9" wb yr).jurisdiction_code := by
  refine ⟨by decide, by decide, fun pyHash lg ft ind dmg wb yr => ⟨?_, ?_⟩⟩
  · exact Int.emod_lt_of_pos _ (by norm_num)
  · exact Int.emod_nonneg _ (by norm_num)

/-- C3 (code bug): after a startup with no persisted artifact pair, the
predictor is a freshly constructed `SettlementPredictor`, which is
non-`None` and always has a `model` attribute, so the 503 guard of
`POST /predict` never fires: every call fails with 422, 400 or 500 —
never 503 — and the health check reports `model_loaded: true`, so the
claimed "model not loaded" state is not detectable either.  At the spec's
example request the endpoint answers 500. -/
theorem C3_predict_unloaded_not_503 :
    (∀ (lg : ℚ → ℚ) (pyHash : String → ℤ) (raw : RawRequest),
      statusOf (predictRoute (Serving.startup none) lg pyHash raw) ∈
        [some 422, some 400, some 500]) ∧
    healthModelLoaded (Serving.startup none) = true ∧
    statusOf (predictRoute (Serving.startup none) lg0 h0 exampleRaw) =
      some 500 := by
  refine ⟨fun lg pyHash raw => ?_, rfl, rfl⟩
  unfold predictRoute
  cases hparse : parseRequest raw with
  | error m => simp [statusOf]
  | ok req =>
    show statusOf (predict_settlement (Serving.startup none) lg pyHash req) ∈ _
    unfold predict_settlement Serving.startup
    simp only [hasattrModel, not_true, if_false, Bool.false_eq_true]
    split_ifs
    · simp [statusOf]
    · simp [statusOf]
    · exact List.mem_cons.mpr (Or.inr (List.mem_cons.mpr (Or.inr
        (List.mem_cons.mpr (Or.inl rfl)))))

/-- C4 (corrected): a 100-item batch in which item #50 has
`damages_claimed = 0` is rejected whole by request parsing with a 422
before `batch_predict` runs: the endpoint returns no per-item results at
all, contradicting the claimed 100-result response with only item #50
failed. -/
theorem C4_batch_item_validation_counterexample :
    batch100bad.length = 100 ∧
    batch100bad.getD 49 goodRaw = badRaw ∧
    batchRoute (some P0) lg0 h0 batch100bad =
      Except.error ⟨422, "damages_claimed: input should be greater than 0"⟩ := by
  exact ⟨rfl, rfl, rfl⟩

/-- C4 (amended): with any constructed predictor, a parsed batch of more
than 100 items is rejected outright with the 400 batch-size error before
any item is processed; a batch of 100 raw items in which item #50 has
`damages_claimed ≤ 0` never reaches the handler — pydantic's `gt = 0`
field bound rejects the entire request with a 422 validation error, so
per-item failure isolation applies only to errors raised during
prediction of a fully valid batch body. -/
theorem C4_batch_limits (P : Predictor) (lg : ℚ → ℚ)
    (pyHash : String → ℤ) (raws : List RawRequest)
    (items : List PredictionRequest)
    (hparse : raws.mapM parseRequest = Except.ok items)
    (hlen : 100 < items.length) :
    batchRoute (some P) lg pyHash raws =
      Except.error ⟨400, "Batch size limited to 100 predictions"⟩ ∧
    batchRoute (some P0) lg0 h0 batch100bad =
      Except.error ⟨422, "damages_claimed: input should be greater than 0"⟩ := by
  constructor
  · unfold batchRoute
    rw [hparse]
    unfold batch_predict
    simp [hasattrModel, hlen]
  · rfl

/-- C4 witness: a valid 101-item batch is parsed successfully and then
rejected with the 400 batch-size error. -/
theorem C4_batch_limits_witness :
    (List.replicate 101 goodRaw).mapM parseRequest =
      Except.ok (List.replicate 101 goodReq) ∧
    100 < (List.replicate 101 goodReq).length ∧
    batchRoute (some P0) lg0 h0 (List.replicate 101 goodRaw) =
      Except.error ⟨400, "Batch size limited to 100 predictions"⟩ := by
  refine ⟨by decide, by decide, ?_⟩
  exact (C4_batch_limits P0 lg0 h0 (List.replicate 101 goodRaw)
    (List.replicate 101 goodReq) (by decide) (by decide)).1

/-- Helper: a string outside the 8-value fraud vocabulary has no entry in
the fraud-type dictionary (the dictionary's keys are exactly the
vocabulary). -/
theorem mapDict_fraud_eq_none (s : String)
    (h : memStr s valid_fraud_types = false) :
    mapDict fraud_type_mapping s = none := by
  simp only [valid_fraud_types, memStr] at h
  simp only [mapDict, fraud_type_mapping]
  split_ifs with h1 h2 h3 h4 h5 h6 h7 h8
  · subst h1; simp at h
  · subst h2; simp at h
  · subst h3; simp at h
  · subst h4; simp at h
  · subst h5; simp at h
  · subst h6; simp at h
  · subst h7; simp at h
  · subst h8; simp at h
  · rfl

/-- C5 (corrected): the batch path does not validate categories.  A
one-item batch whose fraud type `alien` is outside the 8-value vocabulary
is not rejected: the item succeeds, and `create_prediction_input` has
silently mapped the unknown fraud type to code 7 — the `other` code. -/
theorem C5_unknown_category_counterexample :
    memStr "alien" valid_fraud_types = false ∧
    (batch_predict (some P0) lg0 h0 [alienReq]).map
      (fun b => b.results.map ItemResult.statusStr) = Except.ok ["success"] ∧
    (Engine.predBase lg0 h0 "alien" 5000000 "technology" "X" false
      2024).fraud_type_code = 7 := by
  exact ⟨by decide, rfl, by decide⟩

/-- C5 (amended): the single `POST /predict` handler rejects an unknown
fraud type (and, when the fraud type is known, an unknown industry) with
a 400 listing exactly the allowed values, before any mapping happens; the
batch handler performs no such validation — an unknown fraud type is
silently mapped to code 7 (`other`) by `create_prediction_input` and the
batch item succeeds on any loaded model. -/
theorem C5_category_validation :
    (∀ (P : Predictor) (lg : ℚ → ℚ) (pyHash : String → ℤ)
       (req : PredictionRequest),
       memStr (pyLower req.fraud_type) valid_fraud_types = false →
       predict_settlement (some P) lg pyHash req =
         Except.error ⟨400, fraudTypeDetail⟩) ∧
    (∀ (P : Predictor) (lg : ℚ → ℚ) (pyHash : String → ℤ)
       (req : PredictionRequest),
       memStr (pyLower req.fraud_type) valid_fraud_types = true →
       memStr (pyLower req.industry) valid_industries = false →
       predict_settlement (some P) lg pyHash req =
         Except.error ⟨400, industryDetail⟩) ∧
    (∀ (lg : ℚ → ℚ) (pyHash : String → ℤ) (ft ind jur : String) (dmg : ℚ)
       (wb : Bool) (yr : ℤ),
       memStr (pyLower ft) valid_fraud_types = false →
       (Engine.predBase lg pyHash ft dmg ind jur wb yr).fraud_type_code = 7) ∧
    (∀ (lg : ℚ → ℚ) (pyHash : String → ℤ) (sc : Engine.FittedScaler)
       (trees : List (List ℚ → ℚ)) (req : PredictionRequest),
       trees ≠ [] →
       (batch_predict (some { model := .fitted trees, scaler := .fitted sc })
           lg pyHash [req]).map
         (fun b => b.results.map ItemResult.statusStr) =
           Except.ok ["success"]) := by
  refine ⟨?ha, ?hb, ?hc, ?hd⟩
  · intro P lg pyHash req h
    unfold predict_settlement
    simp [hasattrModel, h]
  · intro P lg pyHash req hf hi
    unfold predict_settlement
    simp [hasattrModel, hf, hi]
  · intro lg pyHash ft ind jur dmg wb yr h
    unfold Engine.predBase
    simp [mapDict_fraud_eq_none _ h]
  · intro lg pyHash sc trees req hne
    cases trees with
    | nil => exact absurd rfl hne
    | cons t ts =>
      unfold batch_predict
      simp only [hasattrModel, Bool.not_true, List.length_cons,
        List.length_nil]
      norm_num
      rfl

/-- C5 witness: the concrete unknown-category request `alienReq` is
rejected by the single handler with the exact fraud-type detail, while
the same request succeeds as a batch item on the loaded predictor `P0`,
its fraud type mapped to code 7. -/
theorem C5_category_validation_witness :
    predict_settlement (some P0) lg0 h0 alienReq =
      Except.error ⟨400, fraudTypeDetail⟩ ∧
    (Engine.predBase lg0 h0 "alien" 5000000 "technology" "X" false
      2024).fraud_type_code = 7 ∧
    (batch_predict (some P0) lg0 h0 [alienReq]).map
      (fun b => b.results.map ItemResult.statusStr) = Except.ok ["success"] := by
  refine ⟨?h1, ?h2, ?h3⟩
  · exact C5_category_validation.1 P0 lg0 h0 alienReq (by decide)
  · exact C5_category_validation.2.2.1 lg0 h0 "alien" "technology" "X"
      5000000 false 2024 (by decide)
  · exact C5_category_validation.2.2.2 lg0 h0
      { mean := List.replicate 12 0, scale := List.replicate 12 1 }
      [fun _ => 0] alienReq (List.cons_ne_nil _ _)

/-- Helper: reads on a sorted list by `getD` are monotone in the index
while in bounds. -/
theorem sorted_getD_mono {s : List ℚ} (hs : List.Sorted (· ≤ ·) s)
    {i j : Nat} (hij : i ≤ j) (hj : j < s.length) :
    s.getD i 0 ≤ s.getD j 0 := by
  have hi : i < s.length := lt_of_le_of_lt hij hj
  rw [List.getD_eq_getElem s 0 hi, List.getD_eq_getElem s 0 hj]
  have := hs.rel_get_of_le (Fin.mk_le_mk.mpr hij : (⟨i, hi⟩ : Fin s.length) ≤ ⟨j, hj⟩)
  simpa [List.get_eq_getElem] using this

/-- Helper: on a sorted list, the interpolation partner `s[k+1]` (with
fallback `s[k]`) is at least `s[k]`. -/
theorem sorted_getD_succ_ge {s : List ℚ} (hs : List.Sorted (· ≤ ·) s)
    {k : Nat} (hk : k < s.length) :
    s.getD k 0 ≤ s.getD (k + 1) (s.getD k 0) := by
  rcases lt_or_ge (k + 1) s.length with hlt | hge
  · rw [List.getD_eq_getElem s _ hlt, List.getD_eq_getElem s 0 hk]
    have := hs.rel_get_of_le
      (Fin.mk_le_mk.mpr (Nat.le_succ k) : (⟨k, hk⟩ : Fin s.length) ≤ ⟨k + 1, hlt⟩)
    simpa [List.get_eq_getElem] using this
  · rw [List.getD_eq_default s _ hge]

/-- Helper: core monotonicity of the interpolation formula, with the
floor indices abstracted into naturals. -/
theorem linInterp_mono_aux {s : List ℚ} (hs : List.Sorted (· ≤ ·) s)
    {p q : ℚ} {i j : Nat} (hpq : p ≤ q)
    (hip : (i : ℚ) ≤ p) (hpi1 : p < (i : ℚ) + 1) (hjq : (j : ℚ) ≤ q)
    (hij : i ≤ j) (hjlen : j < s.length) :
    s.getD i 0 + (p - (i : ℚ)) * (s.getD (i + 1) (s.getD i 0) - s.getD i 0) ≤
    s.getD j 0 + (q - (j : ℚ)) * (s.getD (j + 1) (s.getD j 0) - s.getD j 0) := by
  have hilen : i < s.length := lt_of_le_of_lt hij hjlen
  have hba_i : s.getD i 0 ≤ s.getD (i + 1) (s.getD i 0) :=
    sorted_getD_succ_ge hs hilen
  have hba_j : s.getD j 0 ≤ s.getD (j + 1) (s.getD j 0) :=
    sorted_getD_succ_ge hs hjlen
  rcases eq_or_lt_of_le hij with heq | hlt
  · subst heq
    have : (p - (i : ℚ)) * (s.getD (i + 1) (s.getD i 0) - s.getD i 0) ≤
        (q - (i : ℚ)) * (s.getD (i + 1) (s.getD i 0) - s.getD i 0) :=
      mul_le_mul_of_nonneg_right (by linarith) (by linarith)
    linarith
  · have hi1j : i + 1 ≤ j := hlt
    have hi1len : i + 1 < s.length := lt_of_le_of_lt hi1j hjlen
    have step1 : s.getD i 0 + (p - (i : ℚ)) *
        (s.getD (i + 1) (s.getD i 0) - s.getD i 0) ≤
        s.getD (i + 1) (s.getD i 0) := by
      have hle1 : p - (i : ℚ) ≤ 1 := by linarith
      have := mul_le_of_le_one_left
        (by linarith : (0 : ℚ) ≤ s.getD (i + 1) (s.getD i 0) - s.getD i 0) hle1
      linarith
    have step2 : s.getD (i + 1) (s.getD i 0) ≤ s.getD j 0 := by
      rw [List.getD_eq_getElem s _ hi1len]
      rw [show s.getD j 0 = s[j] from List.getD_eq_getElem s 0 hjlen]
      have := hs.rel_get_of_le
        (Fin.mk_le_mk.mpr hi1j : (⟨i + 1, hi1len⟩ : Fin s.length) ≤ ⟨j, hjlen⟩)
      simpa [List.get_eq_getElem] using this
    have step3 : s.getD j 0 ≤ s.getD j 0 + (q - (j : ℚ)) *
        (s.getD (j + 1) (s.getD j 0) - s.getD j 0) := by
      have := mul_nonneg (by linarith : (0 : ℚ) ≤ q - (j : ℚ))
        (by linarith : (0 : ℚ) ≤ s.getD (j + 1) (s.getD j 0) - s.getD j 0)
      linarith
    linarith

/-- Helper: linear interpolation between the entries of a sorted list is
monotone in the position. -/
theorem linInterp_mono {s : List ℚ} (hs : List.Sorted (· ≤ ·) s)
    {p q : ℚ} (hp : 0 ≤ p) (hpq : p ≤ q) (hq : q ≤ (s.length : ℚ) - 1) :
    linInterp s p ≤ linInterp s q := by
  have hq0 : 0 ≤ q := le_trans hp hpq
  have hn : 1 ≤ s.length := by
    have h1 : (0 : ℚ) ≤ (s.length : ℚ) - 1 := le_trans hq0 hq
    have h2 : (1 : ℚ) ≤ (s.length : ℚ) := by linarith
    exact_mod_cast h2
  have hfp0 : (0 : ℤ) ≤ ⌊p⌋ := Int.le_floor.mpr (by exact_mod_cast hp)
  have hfq0 : (0 : ℤ) ≤ ⌊q⌋ := Int.le_floor.mpr (by exact_mod_cast hq0)
  have hip : ((⌊p⌋.toNat : ℕ) : ℚ) ≤ p := by
    have h2 : (((⌊p⌋.toNat : ℕ) : ℤ) : ℚ) = ((⌊p⌋ : ℤ) : ℚ) := by
      rw [Int.toNat_of_nonneg hfp0]
    push_cast at h2
    rw [h2]; exact Int.floor_le p
  have hjq : ((⌊q⌋.toNat : ℕ) : ℚ) ≤ q := by
    have h2 : (((⌊q⌋.toNat : ℕ) : ℤ) : ℚ) = ((⌊q⌋ : ℤ) : ℚ) := by
      rw [Int.toNat_of_nonneg hfq0]
    push_cast at h2
    rw [h2]; exact Int.floor_le q
  have hpi1 : p < ((⌊p⌋.toNat : ℕ) : ℚ) + 1 := by
    have h1 := Int.lt_floor_add_one p
    have h2 : (((⌊p⌋.toNat : ℕ) : ℤ) : ℚ) = ((⌊p⌋ : ℤ) : ℚ) := by
      rw [Int.toNat_of_nonneg hfp0]
    push_cast at h1 h2 ⊢
    linarith
  have hij : ⌊p⌋.toNat ≤ ⌊q⌋.toNat := Int.toNat_le_toNat (Int.floor_le_floor hpq)
  have hjlen : ⌊q⌋.toNat < s.length := by
    have h1 : ((s.length : ℚ) - 1) = (((s.length - 1 : ℕ) : ℤ) : ℚ) := by
      push_cast [hn]; ring
    have h2 : ⌊q⌋ ≤ ((s.length - 1 : ℕ) : ℤ) := by
      have := Int.floor_le_floor hq
      rwa [h1, Int.floor_intCast] at this
    have h3 : ⌊q⌋.toNat ≤ s.length - 1 := by exact_mod_cast Int.toNat_le_toNat h2
    omega
  exact linInterp_mono_aux hs hpq hip hpi1 hjq hij hjlen

/-- Helper: `np.percentile` is monotone in the requested percentile. -/
theorem percentile_mono (l : List ℚ) (hne : l ≠ []) {q1 q2 : ℚ}
    (h0 : 0 ≤ q1) (h12 : q1 ≤ q2) (h100 : q2 ≤ 100) :
    percentile l q1 ≤ percentile l q2 := by
  unfold percentile
  have hsort := List.sorted_insertionSort (· ≤ ·) l
  have hlen : (List.insertionSort (· ≤ ·) l).length = l.length :=
    List.length_insertionSort _ l
  have hpos : 0 < l.length := List.length_pos.mpr hne
  have hn1 : (0 : ℚ) ≤ ((List.insertionSort (· ≤ ·) l).length : ℚ) - 1 := by
    rw [hlen]
    have : (1 : ℚ) ≤ (l.length : ℚ) := by exact_mod_cast hpos
    linarith
  apply linInterp_mono hsort
  · exact div_nonneg (mul_nonneg hn1 h0) (by norm_num)
  · have h1 := mul_le_mul_of_nonneg_left h12 hn1
    exact (div_le_div_right (by norm_num : (0:ℚ) < 100)).mpr h1
  · rw [div_le_iff (by norm_num : (0:ℚ) < 100)]
    have := mul_le_mul_of_nonneg_left h100 hn1
    linarith

/-- Helper: `np.expm1` is monotone. -/
theorem expm1_mono {a b : ℚ} (h : a ≤ b) : expm1 a ≤ expm1 b := by
  unfold expm1
  have hab : (a : ℝ) ≤ (b : ℝ) := by exact_mod_cast h
  have := Real.exp_le_exp.mpr hab
  linarith

/-- Helper: unfolding a successful `predict_settlement_range` call on a
loaded predictor: the per-tree prediction list is non-empty and the
response is the percentile record over it. -/
theorem predict_settlement_range_ok {sc : Engine.FittedScaler}
    {trees : List (List ℚ → ℚ)} {lg : ℚ → ℚ} {pyHash : String → ℤ}
    {ft : String} {dmg : ℚ} {ind jur : String} {wb : Bool} {yr : ℤ}
    {resp : PredictionResponse}
    (hok : predict_settlement_range
      { model := .fitted trees, scaler := .fitted sc } lg pyHash ft dmg
      ind jur wb yr = Except.ok resp) :
    ∃ preds : List ℚ, preds ≠ [] ∧
      resp = { predicted_low := expm1 (percentile preds 25),
               predicted_mid := expm1 (percentile preds 50),
               predicted_high := expm1 (percentile preds 75),
               confidence := 1 - min (predStd preds / 2) (1/2),
               input_damages := dmg } := by
  unfold predict_settlement_range Engine.create_prediction_input at hok
  dsimp only at hok
  generalize hx : Engine.scalerTransform sc (Engine.engine_create_features
    (Engine.predBase lg pyHash ft dmg ind jur wb yr)) = x at hok
  generalize hpreds : trees.map (fun t => t x) = preds at hok
  refine ⟨preds, ?_, ?_⟩
  · intro hemp
    rw [hemp] at hok
    simp at hok
  · split at hok
    · exact absurd hok (fun hc => Except.noConfusion hc)
    · exact (Except.ok.inj hok).symm

/-- C7 (confirmed): every successful `predict_settlement_range` response
from a loaded predictor satisfies `predicted_low ≤ predicted_mid ≤
predicted_high`: the three values are the 25th, 50th and 75th percentiles
of the same per-tree prediction list, back-transformed by the monotone
map `expm1`. -/
theorem C7_prediction_range_ordered (sc : Engine.FittedScaler)
    (trees : List (List ℚ → ℚ)) (lg : ℚ → ℚ) (pyHash : String → ℤ)
    (ft : String) (dmg : ℚ) (ind jur : String) (wb : Bool) (yr : ℤ)
    (resp : PredictionResponse)
    (hok : predict_settlement_range
      { model := .fitted trees, scaler := .fitted sc } lg pyHash ft dmg
      ind jur wb yr = Except.ok resp) :
    resp.predicted_low ≤ resp.predicted_mid ∧
    resp.predicted_mid ≤ resp.predicted_high := by
  obtain ⟨preds, hne, rfl⟩ := predict_settlement_range_ok hok
  constructor
  · exact expm1_mono (percentile_mono preds hne (by norm_num) (by norm_num)
      (by norm_num))
  · exact expm1_mono (percentile_mono preds hne (by norm_num) (by norm_num)
      (by norm_num))

/-- C7 witness: on the concrete loaded predictor `P0` the spec's example
query succeeds and its response is ordered. -/
theorem C7_prediction_range_ordered_witness :
    predict_settlement_range P0 lg0 h0 "healthcare" 10000000
      "pharmaceutical" "Southern District of New York" true 2024 =
      Except.ok respP0 ∧
    respP0.predicted_low ≤ respP0.predicted_mid ∧
    respP0.predicted_mid ≤ respP0.predicted_high := by
  have h : predict_settlement_range P0 lg0 h0 "healthcare" 10000000
      "pharmaceutical" "Southern District of New York" true 2024 =
      Except.ok respP0 := rfl
  exact ⟨h, C7_prediction_range_ordered _ _ lg0 h0 "healthcare" 10000000
    "pharmaceutical" "Southern District of New York" true 2024 respP0 h⟩

/-- C8 (confirmed): every successful `predict_settlement_range` response
has `confidence ∈ [0.5, 1]`: the subtracted term
`min(std/2, 0.5)` is non-negative (the standard deviation is a square
root) and clamped to at most 0.5. -/
theorem C8_confidence_bounds (sc : Engine.FittedScaler)
    (trees : List (List ℚ → ℚ)) (lg : ℚ → ℚ) (pyHash : String → ℤ)
    (ft : String) (dmg : ℚ) (ind jur : String) (wb : Bool) (yr : ℤ)
    (resp : PredictionResponse)
    (hok : predict_settlement_range
      { model := .fitted trees, scaler := .fitted sc } lg pyHash ft dmg
      ind jur wb yr = Except.ok resp) :
    1/2 ≤ resp.confidence ∧ resp.confidence ≤ 1 := by
  obtain ⟨preds, _, rfl⟩ := predict_settlement_range_ok hok
  have hstd : (0 : ℝ) ≤ predStd preds := Real.sqrt_nonneg _
  have hmin1 : (0 : ℝ) ≤ min (predStd preds / 2) (1/2) :=
    le_min (by linarith) (by norm_num)
  have hmin2 : min (predStd preds / 2) (1/2) ≤ 1/2 := min_le_right _ _
  constructor
  · show 1/2 ≤ 1 - min (predStd preds / 2) (1/2)
    linarith
  · show 1 - min (predStd preds / 2) (1/2) ≤ 1
    linarith

/-- C8 witness: on the concrete loaded predictor `P0` the spec's example
query succeeds with a confidence inside `[0.5, 1]`. -/
theorem C8_confidence_bounds_witness :
    predict_settlement_range P0 lg0 h0 "healthcare" 10000000
      "pharmaceutical" "Southern District of New York" true 2024 =
      Except.ok respP0 ∧
    1/2 ≤ respP0.confidence ∧ respP0.confidence ≤ 1 := by
  have h : predict_settlement_range P0 lg0 h0 "healthcare" 10000000
      "pharmaceutical" "Southern District of New York" true 2024 =
      Except.ok respP0 := rfl
  exact ⟨h, C8_confidence_bounds _ _ lg0 h0 "healthcare" 10000000
    "pharmaceutical" "Southern District of New York" true 2024 respP0 h⟩

/-- Helper: every CPI multiplier is at least 1 (the 2024 entry is 1.00
and the out-of-table default is 1.5). -/
theorem cpiMultiplier_ge_one (y : ℤ) : 1 ≤ cpiMultiplier y := by
  by_cases h2024 : y = 2024
  · simp only [cpiMultiplier, h2024]; norm_num
  by_cases h2023 : y = 2023
  · simp only [cpiMultiplier, h2023]; norm_num
  by_cases h2022 : y = 2022
  · simp only [cpiMultiplier, h2022]; norm_num
  by_cases h2021 : y = 2021
  · simp only [cpiMultiplier, h2021]; norm_num
  by_cases h2020 : y = 2020
  · simp only [cpiMultiplier, h2020]; norm_num
  by_cases h2019 : y = 2019
  · simp only [cpiMultiplier, h2019]; norm_num
  by_cases h2018 : y = 2018
  · simp only [cpiMultiplier, h2018]; norm_num
  by_cases h2017 : y = 2017
  · simp only [cpiMultiplier, h2017]; norm_num
  by_cases h2016 : y = 2016
  · simp only [cpiMultiplier, h2016]; norm_num
  by_cases h2015 : y = 2015
  · simp only [cpiMultiplier, h2015]; norm_num
  by_cases h2014 : y = 2014
  · simp only [cpiMultiplier, h2014]; norm_num
  by_cases h2013 : y = 2013
  · simp only [cpiMultiplier, h2013]; norm_num
  by_cases h2012 : y = 2012
  · simp only [cpiMultiplier, h2012]; norm_num
  by_cases h2011 : y = 2011
  · simp only [cpiMultiplier, h2011]; norm_num
  by_cases h2010 : y = 2010
  · simp only [cpiMultiplier, h2010]; norm_num
  unfold cpiMultiplier
  rw [if_neg h2024, if_neg h2023, if_neg h2022, if_neg h2021, if_neg h2020, if_neg h2019, if_neg h2018, if_neg h2017, if_neg h2016, if_neg h2015, if_neg h2014, if_neg h2013, if_neg h2012, if_neg h2011, if_neg h2010]
  norm_num

/-- Helper: the CPI multiplier of a year inside the table is the table's
entry for that year. -/
theorem cpiMultiplier_mem_table (y : ℤ) (h1 : 2010 ≤ y) (h2 : y ≤ 2024) :
    (y, cpiMultiplier y) ∈ cpi_multipliers := by
  interval_cases y <;> simp [cpi_multipliers, cpiMultiplier]

/-- Helper: the CPI multiplier of a year outside the table keys is the
flat default 1.5. -/
theorem cpiMultiplier_default (y : ℤ) (h : y < 2010 ∨ 2024 < y) :
    cpiMultiplier y = 3/2 := by
  unfold cpiMultiplier
  rw [if_neg (by omega : ¬ y = 2024), if_neg (by omega : ¬ y = 2023), if_neg (by omega : ¬ y = 2022), if_neg (by omega : ¬ y = 2021), if_neg (by omega : ¬ y = 2020), if_neg (by omega : ¬ y = 2019), if_neg (by omega : ¬ y = 2018), if_neg (by omega : ¬ y = 2017), if_neg (by omega : ¬ y = 2016), if_neg (by omega : ¬ y = 2015), if_neg (by omega : ¬ y = 2014), if_neg (by omega : ¬ y = 2013), if_neg (by omega : ¬ y = 2012), if_neg (by omega : ¬ y = 2011), if_neg (by omega : ¬ y = 2010)]

/-- Helper: rows surviving `clean_amounts` have either a coerced-NaN
amount or a numeric amount within the outlier bounds. -/
theorem mem_clean_amounts {t : List Row} {r : Row}
    (hr : r ∈ clean_amounts t) :
    r.amount = .na ∨ ∃ q, r.amount = .num q ∧ 10000 ≤ q ∧ q ≤ 1000000000 := by
  unfold clean_amounts at hr
  obtain ⟨hmem, hp2⟩ := List.mem_filter.mp hr
  obtain ⟨r', _, rfl⟩ := List.mem_map.mp hmem
  cases hamt : r'.amount with
  | na => left; simp [hamt]
  | str s => left; simp [hamt]
  | num q =>
    right
    refine ⟨q, by simp [hamt], ?_⟩
    rw [hamt] at hp2
    simp only [decide_eq_true_eq] at hp2
    have : ¬ (q > 1000000000 ∨ q < 10000) := by
      simpa [hamt] using hp2
    push_neg at this
    exact ⟨this.2, this.1⟩

/-- Helper: rows of `clean_dates` are rows of the input with a parsed
date, extended with their settlement year and inflation-adjusted
amount. -/
theorem mem_clean_dates {t : List Row} {r : Row} (hr : r ∈ clean_dates t) :
    ∃ r' ∈ t, ∃ y : ℤ, r'.date = some y ∧
      r = { r' with settlement_year := some y,
                    amount_2024 := adjust_for_inflation r'.amount y } := by
  unfold clean_dates at hr
  obtain ⟨r', hmem, rfl⟩ := List.mem_map.mp hr
  obtain ⟨hmem', hdate⟩ := List.mem_filter.mp hmem
  cases hy : r'.date with
  | none => simp [hy] at hdate
  | some y =>
    refine ⟨r', hmem', y, hy, ?_⟩
    rw [hy]

/-- Helper: `encode_categories` preserves the amount, date, settlement
year and adjusted amount of each row. -/
theorem mem_encode_categories {t : List Row} {r : Row}
    (hr : r ∈ encode_categories t) :
    ∃ r' ∈ t, r.amount = r'.amount ∧ r.date = r'.date ∧
      r.settlement_year = r'.settlement_year ∧
      r.amount_2024 = r'.amount_2024 := by
  unfold encode_categories at hr
  obtain ⟨r1, hmem1, rfl⟩ := List.mem_map.mp hr
  obtain ⟨r', hmem', rfl⟩ := List.mem_map.mp hmem1
  exact ⟨r', hmem', rfl, rfl, rfl, rfl⟩

/-- Helper: a successful `create_features` run certifies that every input
row's `amount_2024` lies in a `pd.cut` bin. -/
theorem create_features_ok_all {lg : ℚ → ℚ} {t ct : List Row}
    (hok : create_features lg t = Except.ok ct) :
    ∀ r ∈ t, (cutDefendantSize r.amount_2024).isSome = true := by
  unfold create_features at hok
  split at hok
  · next hall => exact fun r hr => List.all_eq_true.mp hall r hr
  · exact absurd hok (fun hc => Except.noConfusion hc)

/-- Helper: `remove_duplicates` only drops rows. -/
theorem mem_remove_duplicates {t : List Row} {r : Row}
    (hr : r ∈ remove_duplicates t) : r ∈ t := by
  unfold remove_duplicates at hr
  suffices h : ∀ (seen : List (String × AmountCell × Option ℤ))
      (t : List Row), r ∈ dedupAux seen t → r ∈ t by
    exact h [] t hr
  intro seen t
  induction t generalizing seen with
  | nil => intro h; simpa [dedupAux] using h
  | cons r0 rs ih =>
    intro h
    unfold dedupAux at h
    split at h
    · exact List.mem_cons.mpr (Or.inr (ih _ h))
    · rcases List.mem_cons.mp h with heq | hmem
      · exact List.mem_cons.mpr (Or.inl heq)
      · exact List.mem_cons.mpr (Or.inr (ih _ hmem))

/-- Helper: every row of a successful cleaning-steps run carries a
numeric amount within the outlier bounds and an `amount_2024` equal to
that amount times the CPI multiplier of its settlement year. -/
theorem mem_cleaning_steps_ok {lg : ℚ → ℚ} {t ct : List Row} {r : Row}
    (hok : cleaning_steps lg t = Except.ok ct) (hr : r ∈ ct) :
    ∃ a y, r.amount = .num a ∧ 10000 ≤ a ∧ a ≤ 1000000000 ∧
      r.settlement_year = some y ∧
      r.amount_2024 = some (a * cpiMultiplier y) := by
  unfold cleaning_steps at hok
  cases hcf : create_features lg (encode_categories (clean_dates
      (clean_amounts t))) with
  | error e => rw [hcf] at hok; exact absurd hok (fun hc => Except.noConfusion hc)
  | ok ct4 =>
    rw [hcf] at hok
    have hct : ct = remove_duplicates ct4 := (Except.ok.inj hok).symm
    subst hct
    have hr4 : r ∈ ct4 := mem_remove_duplicates hr
    have hall := create_features_ok_all hcf
    have hmap := create_features_ok hcf
    subst hmap
    obtain ⟨r3, hr3, rfl⟩ := List.mem_map.mp hr4
    have hcut : (cutDefendantSize r3.amount_2024).isSome = true :=
      hall r3 hr3
    obtain ⟨r2, hr2, ham, _, hsy, ha24⟩ := mem_encode_categories hr3
    obtain ⟨r1, hr1, y, hy, rfl⟩ := mem_clean_dates hr2
    rcases mem_clean_amounts hr1 with hna | ⟨a, hnum, hlo, hhi⟩
    · exfalso
      rw [ha24] at hcut
      simp only [hna, adjust_for_inflation] at hcut
      simp [cutDefendantSize] at hcut
    · refine ⟨a, y, ?_, hlo, hhi, ?_, ?_⟩
      · simpa [hnum] using ham
      · simpa using hsy
      · rw [ha24]
        simp [adjust_for_inflation, hnum]

/-- Helper: a successful `clean_all` run is a successful cleaning-steps
run whose validation reported no issues. -/
theorem clean_all_ok_steps {lg : ℚ → ℚ} {t ct : List Row}
    (hok : clean_all lg t = Except.ok ct) :
    cleaning_steps lg t = Except.ok ct := by
  unfold clean_all at hok
  split at hok
  · exact absurd hok (fun hc => Except.noConfusion hc)
  · next t5 heq =>
    split at hok
    · rw [heq, Except.ok.inj hok]
    · exact absurd hok (fun hc => Except.noConfusion hc)

/-- C6 (confirmed): every row surviving the full cleaning pipeline has a
numeric `amount`, and its `amount_2024` equals `amount × cpi_multiplier`
of its settlement year — where the multiplier is the CPI table entry when
the year is one of the table keys 2010–2024 and the flat default 1.5
otherwise — and `amount_2024` is strictly positive. -/
theorem C6_amount_2024_cpi (lg : ℚ → ℚ) (t ct : List Row)
    (hok : clean_all lg t = Except.ok ct) (r : Row) (hr : r ∈ ct) :
    ∃ a y, r.amount = .num a ∧ r.settlement_year = some y ∧
      r.amount_2024 = some (a * cpiMultiplier y) ∧
      0 < a * cpiMultiplier y ∧
      (2010 ≤ y ∧ y ≤ 2024 → (y, cpiMultiplier y) ∈ cpi_multipliers) ∧
      (y < 2010 ∨ 2024 < y → cpiMultiplier y = 3/2) := by
  obtain ⟨a, y, h1, hlo, _, hsy, ha24⟩ :=
    mem_cleaning_steps_ok (clean_all_ok_steps hok) hr
  have hmul : (1 : ℚ) ≤ cpiMultiplier y := cpiMultiplier_ge_one y
  refine ⟨a, y, h1, hsy, ha24, ?_,
    fun hy => cpiMultiplier_mem_table y hy.1 hy.2,
    fun hy => cpiMultiplier_default y hy⟩
  have ha : (0 : ℚ) < a := by linarith
  exact mul_pos ha (by linarith)

unseal Rat.mul Rat.inv Rat.add Rat.sub in
/-- C6 witness: the concrete 20-row clean table passes `clean_all`
unchanged; its first row settled in 2020 on an amount of 100,000 and the
theorem yields the positivity of `100000 × cpi_multiplier(2020)`. -/
theorem C6_amount_2024_cpi_witness :
    clean_all lg0 cleanTable20 = Except.ok cleanTable20 ∧
    mkCleanRow 0 ∈ cleanTable20 ∧
    (mkCleanRow 0).amount_2024 = some (100000 * cpiMultiplier 2020) ∧
    (0 : ℚ) < 100000 * cpiMultiplier 2020 := by
  refine ⟨by decide, by decide, by decide, ?_⟩
  obtain ⟨a, y, h1, h2, _, h4, _, _⟩ := C6_amount_2024_cpi lg0 cleanTable20
    cleanTable20 (by decide) (mkCleanRow 0) (by decide)
  have ha : AmountCell.num (100000 : ℚ) = AmountCell.num a := by
    rw [← h1]; rfl
  have hy : (some (2020 : ℤ) : Option ℤ) = some y := by
    rw [← h2]; rfl
  injection ha with ha'
  injection hy with hy'
  rw [ha', hy']
  exact h4

/-- C10 (confirmed): the `Negative or zero amounts found` validation
branch is unreachable through `clean_all`.  Every row of a table reaching
`validate_data` (a successful cleaning-steps run; the only other
`clean_all` outcome is the earlier `create_features` cast exception) has
`amount ≥ 10,000` (outlier removal) and a CPI multiplier `≥ 1`, hence
`amount_2024 ≥ 10,000 > 0`; consequently the issue list `validate_data`
computes is exactly the minimum-row-count issue, so positivity can never
be the cause of a `clean_all` failure. -/
theorem C10_positivity_check_unreachable (lg : ℚ → ℚ) (t ct : List Row)
    (hok : cleaning_steps lg t = Except.ok ct) :
    (∀ r ∈ ct, ∃ a y, r.amount = .num a ∧ 10000 ≤ a ∧
      r.settlement_year = some y ∧
      r.amount_2024 = some (a * cpiMultiplier y) ∧
      10000 ≤ a * cpiMultiplier y) ∧
    validate_issues ct =
      (if ct.length < 20 then
        ["Insufficient data: only " ++ toString ct.length ++
          " records (need 20+ for testing)"]
      else []) := by
  have hrows : ∀ r ∈ ct, ∃ a y, r.amount = .num a ∧ 10000 ≤ a ∧
      r.settlement_year = some y ∧
      r.amount_2024 = some (a * cpiMultiplier y) ∧
      10000 ≤ a * cpiMultiplier y := by
    intro r hr
    obtain ⟨a, y, h1, hlo, _, hsy, ha24⟩ := mem_cleaning_steps_ok hok hr
    refine ⟨a, y, h1, hlo, hsy, ha24, ?_⟩
    calc (10000 : ℚ) ≤ a := hlo
    _ ≤ a * cpiMultiplier y :=
      le_mul_of_one_le_right (by linarith) (cpiMultiplier_ge_one y)
  refine ⟨hrows, ?_⟩
  unfold validate_issues
  have hany : (ct.any fun r => match r.amount_2024 with
      | some q => decide (q ≤ 0)
      | none => false) = false := by
    rw [List.any_eq_false]
    intro r hr
    obtain ⟨a, y, _, _, _, ha24, hge⟩ := hrows r hr
    rw [ha24]
    simp only [decide_eq_true_eq]
    intro hc
    exact absurd hc (by linarith)
  rw [hany]
  simp

unseal Rat.mul Rat.inv Rat.add Rat.sub in
/-- C10 witness: on the concrete 20-row clean table the cleaning steps
succeed and the validation issue list is empty. -/
theorem C10_positivity_check_unreachable_witness :
    cleaning_steps lg0 cleanTable20 = Except.ok cleanTable20 ∧
    validate_issues cleanTable20 = [] := by
  refine ⟨by decide, ?_⟩
  have h := (C10_positivity_check_unreachable lg0 cleanTable20 cleanTable20
    (by decide)).2
  rw [h]
  decide

/-- Helper: unpacking the Boolean per-row cleanliness check into its
component facts. -/
theorem rowCleanB_props {lg : ℚ → ℚ} {col : List String} {r : Row}
    (h : rowCleanB lg col r = true) :
    (∃ q, r.amount = .num q ∧ 10000 ≤ q ∧ q ≤ 1000000000) ∧
    (∃ y : ℤ, r.date = some y) ∧
    r.settlement_year = r.date ∧
    r.amount_2024 = adjust_for_inflation r.amount (r.date.getD 0) ∧
    (∃ ft, r.fraud_type = some ft) ∧
    (∃ ind, r.industry = some ind) ∧
    (∃ jur, r.jurisdiction = some jur) ∧
    (∃ n, r.whistleblower = .intVal n) ∧
    r.fraud_type_code = mapDict fraud_type_mapping (r.fraud_type.getD "other") ∧
    r.industry_code = mapDict industry_mapping (r.industry.getD "other") ∧
    r.jurisdiction_code = some (catCode col (r.jurisdiction.getD "Unknown")) ∧
    r.log_amount = r.amount_2024.map lg ∧
    r.defendant_size = cutDefendantSize r.amount_2024 ∧
    r.fraud_severity = r.amount_2024.map
      (fun a => lg a * severityWeight (r.fraud_type.getD "other")) := by
  unfold rowCleanB at h
  cases hamt : r.amount with
  | na => rw [hamt] at h; simp at h
  | str s => rw [hamt] at h; simp at h
  | num q =>
    rw [hamt] at h
    cases hwb : r.whistleblower with
    | missing => rw [hwb] at h; simp at h
    | boolVal b => rw [hwb] at h; simp at h
    | intVal n =>
      rw [hwb] at h
      simp only [Bool.and_eq_true, decide_eq_true_eq,
        Option.isSome_iff_exists] at h
      obtain ⟨⟨⟨⟨⟨⟨⟨⟨⟨⟨⟨⟨⟨⟨hqlo, hqhi⟩, hdate⟩, hsy⟩, ha24⟩, hft⟩, hind⟩,
        hjur⟩, _⟩, hftc⟩, hindc⟩, hjc⟩, hlog⟩, hds⟩, hfs⟩ := h
      exact ⟨⟨q, rfl, hqlo, hqhi⟩, hdate, hsy, ha24,
        hft, hind, hjur, ⟨n, rfl⟩, hftc, hindc, hjc, hlog, hds, hfs⟩

/-- Helper: mapping a function that fixes every element is the
identity. -/
theorem map_eq_self_of_fix {α : Type} {l : List α} {f : α → α}
    (h : ∀ a ∈ l, f a = a) : l.map f = l := by
  conv_rhs => rw [← List.map_id l]
  exact List.map_congr_left h

/-- Helper: `clean_amounts` fixes a table of in-range numeric amounts. -/
theorem clean_amounts_fix {t : List Row}
    (h : ∀ r ∈ t, ∃ q, r.amount = .num q ∧ 10000 ≤ q ∧ q ≤ 1000000000) :
    clean_amounts t = t := by
  unfold clean_amounts
  dsimp only
  have h1 : t.filter (fun r => r.amount ≠ .na) = t := by
    apply List.filter_eq_self.mpr
    intro r hr
    obtain ⟨q, hq, _, _⟩ := h r hr
    simp [hq]
  rw [h1]
  have h2 : t.map (fun r =>
      { r with amount := match r.amount with | .str _ => .na | c => c }) = t := by
    apply map_eq_self_of_fix
    intro r hr
    obtain ⟨q, hq, _, _⟩ := h r hr
    have hm : (match r.amount with | .str _ => AmountCell.na | c => c) =
        r.amount := by rw [hq]
    rw [hm]
  rw [h2]
  apply List.filter_eq_self.mpr
  intro r hr
  obtain ⟨q, hq, hlo, hhi⟩ := h r hr
  simp only [hq, decide_eq_true_eq]
  push_neg
  exact ⟨hhi, hlo⟩

/-- Helper: `clean_dates` fixes a table whose settlement years and
adjusted amounts are already consistent with its dates. -/
theorem clean_dates_fix {t : List Row}
    (h : ∀ r ∈ t, (∃ y : ℤ, r.date = some y) ∧
      r.settlement_year = r.date ∧
      r.amount_2024 = adjust_for_inflation r.amount (r.date.getD 0)) :
    clean_dates t = t := by
  unfold clean_dates
  have h1 : t.filter (fun r => r.date ≠ none) = t := by
    apply List.filter_eq_self.mpr
    intro r hr
    obtain ⟨⟨y, hy⟩, _, _⟩ := h r hr
    simp [hy]
  rw [h1]
  apply map_eq_self_of_fix
  intro r hr
  obtain ⟨⟨y, hy⟩, hsy, ha⟩ := h r hr
  rw [hy] at ha hsy
  simp only [Option.getD_some] at ha
  cases r
  dsimp only at hy hsy ha ⊢
  subst hy
  subst hsy
  subst ha
  rfl

/-- Helper: `encode_categories` fixes a table whose categorical columns
are filled and whose codes match its own (filled) jurisdiction column. -/
theorem encode_categories_fix {t : List Row}
    (h : ∀ r ∈ t, (∃ ft, r.fraud_type = some ft) ∧
      (∃ ind, r.industry = some ind) ∧
      (∃ jur, r.jurisdiction = some jur) ∧
      (∃ n, r.whistleblower = .intVal n) ∧
      r.fraud_type_code = mapDict fraud_type_mapping (r.fraud_type.getD "other") ∧
      r.industry_code = mapDict industry_mapping (r.industry.getD "other") ∧
      r.jurisdiction_code =
        some (catCode (jurisdictionColumn t) (r.jurisdiction.getD "Unknown"))) :
    encode_categories t = t := by
  unfold encode_categories
  dsimp only
  have h1 : t.map (fun r =>
      { r with fraud_type := some (r.fraud_type.getD "other"),
               industry := some (r.industry.getD "other"),
               jurisdiction := some (r.jurisdiction.getD "Unknown"),
               whistleblower := .intVal (wbToInt r.whistleblower) }) = t := by
    apply map_eq_self_of_fix
    intro r hr
    obtain ⟨⟨ft, hft⟩, ⟨ind, hind⟩, ⟨jur, hjur⟩, ⟨n, hwb⟩, _, _, _⟩ := h r hr
    rw [hft, hind, hjur, hwb]
    dsimp only [Option.getD_some, wbToInt]
    rw [← hft, ← hind, ← hjur, ← hwb]
  rw [h1]
  apply map_eq_self_of_fix
  intro r hr
  obtain ⟨_, _, _, _, hftc, hindc, hjc⟩ := h r hr
  rw [← hftc, ← hindc]
  have : (t.map (fun r => r.jurisdiction.getD "Unknown")) =
      jurisdictionColumn t := rfl
  rw [this, ← hjc]

/-- Helper: `create_features` succeeds and fixes a table whose derived
feature columns are already consistent and whose adjusted amounts are
positive. -/
theorem create_features_fix {lg : ℚ → ℚ} {t : List Row}
    (hpos : ∀ r ∈ t, ∃ a, r.amount_2024 = some a ∧ 0 < a)
    (h : ∀ r ∈ t,
      r.log_amount = r.amount_2024.map lg ∧
      r.defendant_size = cutDefendantSize r.amount_2024 ∧
      r.fraud_severity = r.amount_2024.map
        (fun a => lg a * severityWeight (r.fraud_type.getD "other"))) :
    create_features lg t = Except.ok t := by
  unfold create_features
  have hall : (t.all fun r => (cutDefendantSize r.amount_2024).isSome) = true := by
    rw [List.all_eq_true]
    intro r hr
    obtain ⟨a, ha, hapos⟩ := hpos r hr
    rw [ha]
    simp only [cutDefendantSize]
    rw [if_neg (not_le.mpr hapos)]
    split_ifs <;> rfl
  rw [if_pos hall]
  congr 1
  apply map_eq_self_of_fix
  intro r hr
  obtain ⟨hlog, hds, hfs⟩ := h r hr
  cases r
  dsimp only at hlog hds hfs ⊢
  subst hlog
  subst hds
  subst hfs
  rfl

/-- Helper: the deduplication worker fixes a list whose keys are pairwise
distinct and disjoint from the already-seen keys. -/
theorem dedupAux_eq_self (t : List Row) :
    ∀ seen, (t.map dedupKey).Nodup → (∀ r ∈ t, dedupKey r ∉ seen) →
    dedupAux seen t = t := by
  induction t with
  | nil => intro seen _ _; rfl
  | cons r rs ih =>
    intro seen hnd hseen
    have hnd' : (dedupKey r :: rs.map dedupKey).Nodup := by simpa using hnd
    unfold dedupAux
    rw [if_neg (hseen r (List.mem_cons_self r rs))]
    congr 1
    apply ih
    · exact (List.nodup_cons.mp hnd').2
    · intro r' hr' hmem
      rcases List.mem_cons.mp hmem with heq | hmem'
      · have hhead := (List.nodup_cons.mp hnd').1
        have : dedupKey r ∈ rs.map dedupKey := by
          rw [← heq]
          exact List.mem_map_of_mem dedupKey hr'
        exact hhead this
      · exact hseen r' (List.mem_cons_of_mem r hr') hmem'

/-- Helper: `remove_duplicates` fixes a table with pairwise distinct
keys. -/
theorem remove_duplicates_fix {t : List Row}
    (h : (t.map dedupKey).Nodup) : remove_duplicates t = t :=
  dedupAux_eq_self t [] h (fun r _ => List.not_mem_nil (dedupKey r))

/-- C9 (amended): the cleaning pipeline fixes every internally consistent
cleaned table — at least 20 rows, pairwise distinct
`(defendant, amount, settlement_year)` keys, every derived column equal
to the value the steps recompute, and in particular jurisdiction codes
equal to the categorical encoding of the table's OWN jurisdiction
column.  The output of a `clean_all` run in which deduplication dropped a
row need not satisfy that last consistency condition (its codes were
computed while the dropped row's jurisdiction was still a category),
which is exactly the situation of the counterexample. -/
theorem C9_cleaning_fixpoint (lg : ℚ → ℚ) (t : List Row)
    (h : isCleanTable lg t) :
    cleaning_steps lg t = Except.ok t ∧ clean_all lg t = Except.ok t := by
  obtain ⟨hlen, hnodup, hrows⟩ := h
  have hprops := fun r hr => rowCleanB_props (hrows r hr)
  have h1 : clean_amounts t = t :=
    clean_amounts_fix (fun r hr => (hprops r hr).1)
  have h2 : clean_dates t = t :=
    clean_dates_fix (fun r hr => ⟨(hprops r hr).2.1, (hprops r hr).2.2.1,
      (hprops r hr).2.2.2.1⟩)
  have h3 : encode_categories t = t :=
    encode_categories_fix (fun r hr => ⟨(hprops r hr).2.2.2.2.1,
      (hprops r hr).2.2.2.2.2.1, (hprops r hr).2.2.2.2.2.2.1,
      (hprops r hr).2.2.2.2.2.2.2.1, (hprops r hr).2.2.2.2.2.2.2.2.1,
      (hprops r hr).2.2.2.2.2.2.2.2.2.1,
      (hprops r hr).2.2.2.2.2.2.2.2.2.2.1⟩)
  have hpos : ∀ r ∈ t, ∃ a, r.amount_2024 = some a ∧ 0 < a := by
    intro r hr
    obtain ⟨⟨q, hq, hlo, _⟩, ⟨y, hy⟩, _, ha24, _⟩ := hprops r hr
    refine ⟨q * cpiMultiplier y, ?_, ?_⟩
    · rw [ha24, hq, hy]
      simp [adjust_for_inflation]
    · have hm := cpiMultiplier_ge_one y
      have hq0 : (0 : ℚ) < q := by linarith
      exact mul_pos hq0 (by linarith)
  have h4 : create_features lg t = Except.ok t :=
    create_features_fix hpos (fun r hr =>
      ⟨(hprops r hr).2.2.2.2.2.2.2.2.2.2.2.1,
       (hprops r hr).2.2.2.2.2.2.2.2.2.2.2.2.1,
       (hprops r hr).2.2.2.2.2.2.2.2.2.2.2.2.2⟩)
  have h5 : remove_duplicates t = t := remove_duplicates_fix hnodup
  have hsteps : cleaning_steps lg t = Except.ok t := by
    unfold cleaning_steps
    rw [h1, h2, h3, h4]
    simp [Except.map, h5]
  refine ⟨hsteps, ?_⟩
  unfold clean_all
  rw [hsteps]
  have hval : validate_issues t = [] := by
    unfold validate_issues
    rw [if_neg (by omega : ¬ t.length < 20)]
    have hany : (t.any fun r => match r.amount_2024 with
        | some q => decide (q ≤ 0)
        | none => false) = false := by
      rw [List.any_eq_false]
      intro r hr
      obtain ⟨a, ha, hapos⟩ := hpos r hr
      rw [ha]
      simp only [decide_eq_true_eq]
      intro hc
      exact absurd hc (by linarith)
    rw [hany]
    simp
  dsimp only
  rw [if_pos hval]

unseal Rat.mul Rat.inv Rat.add Rat.sub in
/-- C9 (corrected): cleaning is not idempotent on its own output.  The
three-row raw table `c9raw` contains a duplicate-key row carrying the
alphabetically first jurisdiction; the cleaning steps drop it, leaving
the two-row table `c9mid`, which satisfies the claim's preconditions (no
duplicate keys, no outliers, no missing fields) — yet re-running the full
sequence of cleaning steps re-encodes the jurisdiction column without the
dropped category, changing the stored jurisdiction codes from `[1, 2]` to
`[0, 1]`: same row count, different column values. -/
theorem C9_idempotence_counterexample :
    cleaning_steps lg0 c9raw = Except.ok c9mid ∧
    alreadyCleanedPre c9mid ∧
    (c9mid.map fun r => r.jurisdiction_code) = [some 1, some 2] ∧
    cleaning_steps lg0 c9mid = Except.ok c9mid2 ∧
    (c9mid2.map fun r => r.jurisdiction_code) = [some 0, some 1] ∧
    c9mid2.length = c9mid.length ∧
    ¬ cleaning_steps lg0 c9mid = Except.ok c9mid := by
  exact ⟨by decide, by decide, by decide, by decide, by decide, by decide,
    by decide⟩

unseal Rat.mul Rat.inv Rat.add Rat.sub in
/-- C9 witness: the concrete 20-row consistent clean table is fixed by
the cleaning steps and by the full `clean_all`. -/
theorem C9_cleaning_fixpoint_witness :
    isCleanTable lg0 cleanTable20 ∧
    cleaning_steps lg0 cleanTable20 = Except.ok cleanTable20 ∧
    clean_all lg0 cleanTable20 = Except.ok cleanTable20 := by
  refine ⟨by decide, ?_, ?_⟩
  · exact (C9_cleaning_fixpoint lg0 cleanTable20 (by decide)).1
  · exact (C9_cleaning_fixpoint lg0 cleanTable20 (by decide)).2
